import Mathlib

/-!
Verification development for the OpenDDL document parser and structural
validator of the `magnum-plugins` repository (the OpenGEX importer's
`OpenDdl` subsystem).

The repository sources available are `OpenDdl/Structure.h` (structure view:
`type()`, `isCustom()`, `as<T>()`, `asArray<T>()`, traversal),
`OpenDdl/Validation.h` (the validation rule records
`Validation::Property` and `Validation::Structure`) and the test suite
`OpenDdl/Test/Test.cpp`.  The implementation files (`Document.cpp`,
`Document.h`, `Type.h`, `Property.h`, `Structure.cpp`) are not available;
those parts are modelled from the specification (its grammar, data model and
message catalogue), with every observable behaviour pinned by the exact
expectations of `Test.cpp`.  Definitions modelled this way carry a doc
comment starting with `Modelled from the spec:`.
-/

set_option maxRecDepth 100000

deriving instance DecidableEq for Except

namespace OpenDdl

/-- Modelled from the spec: the closed set of primitive type tags of
`Type.h` (integers of various widths/signedness, float, double, bool,
string, reference) plus the `Custom` sentinel; the enumeration order is the
keyword-table order used by `Structure::type()`'s `std::min` clamping.
Named `Type'` because `Type` is reserved in Lean. -/
inductive Type' where
  | Bool
  | UnsignedByte
  | Byte
  | UnsignedShort
  | Short
  | UnsignedInt
  | Int
  | UnsignedLong
  | Long
  | Float
  | Double
  | String
  | Reference
  | Custom
deriving DecidableEq, Repr

/-- Underlying numeric tag of a `Type'` enumerator (its declaration
position, as the C++ enum value used by `std::min`). -/
def Type'.toNat : Type' → Nat
  | .Bool => 0
  | .UnsignedByte => 1
  | .Byte => 2
  | .UnsignedShort => 3
  | .Short => 4
  | .UnsignedInt => 5
  | .Int => 6
  | .UnsignedLong => 7
  | .Long => 8
  | .Float => 9
  | .Double => 10
  | .String => 11
  | .Reference => 12
  | .Custom => 13

/-- Numeric tag of the `Custom` sentinel. -/
def customTag : Nat := 13

/-- Interpret a raw stored tag as a `Type'`; tags at or beyond the
`Custom` position map to `Custom`. -/
def typeFromTag : Nat → Type'
  | 0 => .Bool
  | 1 => .UnsignedByte
  | 2 => .Byte
  | 3 => .UnsignedShort
  | 4 => .Short
  | 5 => .UnsignedInt
  | 6 => .Int
  | 7 => .UnsignedLong
  | 8 => .Long
  | 9 => .Float
  | 10 => .Double
  | 11 => .String
  | 12 => .Reference
  | _ => .Custom

/-- Whether a type tag is one of the integer types (any width or
signedness). -/
def isIntegralType : Type' → Bool
  | .UnsignedByte | .Byte | .UnsignedShort | .Short
  | .UnsignedInt | .Int | .UnsignedLong | .Long => true
  | _ => false

/-- Rendering of a type tag as the validator prints it for sub-structure
type mismatches, as pinned by `Test::validateWrongPrimitiveType`
(`OpenDdl::Type::Int`). -/
def typeName : Type' → String
  | .Bool => "OpenDdl::Type::Bool"
  | .UnsignedByte => "OpenDdl::Type::UnsignedByte"
  | .Byte => "OpenDdl::Type::Byte"
  | .UnsignedShort => "OpenDdl::Type::UnsignedShort"
  | .Short => "OpenDdl::Type::Short"
  | .UnsignedInt => "OpenDdl::Type::UnsignedInt"
  | .Int => "OpenDdl::Type::Int"
  | .UnsignedLong => "OpenDdl::Type::UnsignedLong"
  | .Long => "OpenDdl::Type::Long"
  | .Float => "OpenDdl::Type::Float"
  | .Double => "OpenDdl::Type::Double"
  | .String => "OpenDdl::Type::String"
  | .Reference => "OpenDdl::Type::Reference"
  | .Custom => "OpenDdl::Type::Custom"

/-- Rendering of a property type tag as the validator prints it for
property type mismatches, as pinned by `Test::validateWrongPropertyType`
(`OpenDdl::PropertyType::Float`). -/
def propertyTypeName : Type' → String
  | .Bool => "OpenDdl::PropertyType::Bool"
  | .UnsignedByte => "OpenDdl::PropertyType::UnsignedByte"
  | .Byte => "OpenDdl::PropertyType::Byte"
  | .UnsignedShort => "OpenDdl::PropertyType::UnsignedShort"
  | .Short => "OpenDdl::PropertyType::Short"
  | .UnsignedInt => "OpenDdl::PropertyType::UnsignedInt"
  | .Int => "OpenDdl::PropertyType::Int"
  | .UnsignedLong => "OpenDdl::PropertyType::UnsignedLong"
  | .Long => "OpenDdl::PropertyType::Long"
  | .Float => "OpenDdl::PropertyType::Float"
  | .Double => "OpenDdl::PropertyType::Double"
  | .String => "OpenDdl::PropertyType::String"
  | .Reference => "OpenDdl::PropertyType::Reference"
  | .Custom => "OpenDdl::PropertyType::Custom"

/-- Modelled from the spec: the reserved "unknown identifier" sentinel to
which a keyword absent from the caller-supplied identifier table resolves;
distinct from every table position (positions are non-negative). -/
def UnknownIdentifier : Int := -1

/-- A primitive value as stored in the per-type data arrays.  Machine
integers of every width are represented as unbounded `Int` (the inputs in
scope never overflow their C++ types), floating-point literals as exact
rationals (every literal in scope is exactly representable), strings and
reference names as `String`. -/
inductive Value where
  | bool (b : Bool)
  | int (i : Int)
  | rat (q : Rat)
  | str (s : String)
deriving DecidableEq, Repr

/-- Modelled from the spec: one `StructureData` record of the Document
arena.  `typeTag` is the raw stored type tag (a primitive tag, or at least
`customTag` for custom structures); `identifier` is the resolved custom
identifier; `name` indexes the string table (0 = absent); `parent`,
`firstChild` and `next` are arena indices (0 = null); `dataBegin`/`dataSize`
delimit the primitive payload in the per-type data array;
`propertiesBegin`/`propertiesSize` delimit the contiguous property run. -/
structure StructureData where
  typeTag : Nat
  identifier : Int
  name : Nat
  parent : Nat
  firstChild : Nat
  next : Nat
  dataBegin : Nat
  dataSize : Nat
  subArraySize : Nat
  propertiesBegin : Nat
  propertiesSize : Nat
deriving DecidableEq, Repr

/-- Modelled from the spec: one `PropertyData` record: resolved property
identifier, the primitive type of its scalar value and the index of that
value in the corresponding data array (properties always store exactly one
value). -/
structure PropertyData where
  identifier : Int
  type : Type'
  dataBegin : Nat
deriving DecidableEq, Repr

/-- Modelled from the spec: the owning `Document`: the structure arena
(index 0 reserved as the null/root sentinel), the property arena, the
string table (index 0 reserved as the empty string) and one data array per
primitive type (indexed by `Type'.toNat`).  The caller-supplied identifier
tables are retained for validation messages. -/
structure Document where
  structures : List StructureData
  properties : List PropertyData
  strings : List String
  dataArrays : List (List Value)
  structureIdentifiers : List String
  propertyIdentifiers : List String
deriving DecidableEq, Repr

/-- The reserved null structure at arena index 0; it doubles as the
virtual root whose `firstChild` heads the top-level sibling chain. -/
def nullStructure : StructureData :=
  { typeTag := customTag, identifier := UnknownIdentifier, name := 0,
    parent := 0, firstChild := 0, next := 0, dataBegin := 0, dataSize := 0,
    subArraySize := 0, propertiesBegin := 0, propertiesSize := 0 }

/-- A freshly constructed, empty document. -/
def emptyDocument : Document :=
  { structures := [nullStructure], properties := [], strings := [""],
    dataArrays := List.replicate 13 [],
    structureIdentifiers := [], propertyIdentifiers := [] }

/-- Structure record at an arena index (out-of-range reads yield the null
record, mirroring the reserved sentinel). -/
def Document.structureAt (d : Document) (i : Nat) : StructureData :=
  d.structures.getD i nullStructure

/-- The contiguous data array for one primitive type
(`Document::data<T>()`). -/
def Document.data (d : Document) (τ : Type') : List Value :=
  d.dataArrays.getD τ.toNat []

/-- Modelled from the spec: resolution of a keyword against a
caller-supplied identifier table: the keyword's position becomes its
integer identifier, a keyword absent from the table resolves to the
reserved `UnknownIdentifier` sentinel. -/
def lookupIdentifier : List String → Nat → String → Int
  | [], _, _ => UnknownIdentifier
  | t :: ts, i, w => if t = w then Int.ofNat i else lookupIdentifier ts (i + 1) w

/-- The single-quote character (used by char literals). -/
def sqChar : Char := Char.ofNat 39

/-- Whether a character can start an OpenDDL identifier. -/
def isIdentStart (c : Char) : Bool := c.isAlpha || c = '_'

/-- Whether a character can continue an OpenDDL identifier. -/
def isIdentChar (c : Char) : Bool := c.isAlpha || c.isDigit || c = '_'

/-- Whether a character is a hexadecimal digit. -/
def isHexDigit (c : Char) : Bool :=
  c.isDigit || ('a' ≤ c && c ≤ 'f') || ('A' ≤ c && c ≤ 'F')

/-- Numeric value of a hexadecimal digit. -/
def hexVal (c : Char) : Nat :=
  if c.isDigit then c.toNat - 48
  else if 'a' ≤ c && c ≤ 'f' then c.toNat - 87
  else if 'A' ≤ c && c ≤ 'F' then c.toNat - 55
  else 0

/-- Split off the longest prefix of characters satisfying a predicate. -/
def takeWhileChar (p : Char → Bool) : List Char → List Char × List Char
  | [] => ([], [])
  | c :: rest =>
    if p c then
      let (a, b) := takeWhileChar p rest
      (c :: a, b)
    else ([], c :: rest)

/-- Decimal value of a digit string. -/
def digitsToNat (ds : List Char) : Nat :=
  ds.foldl (fun acc c => acc * 10 + (c.toNat - 48)) 0

/-- Hexadecimal value of a hex-digit string. -/
def hexToNat (ds : List Char) : Nat :=
  ds.foldl (fun acc c => acc * 16 + hexVal c) 0

/-- Drop characters up to, but not including, the next newline (used for
`//` line comments; the newline itself is left for the whitespace skipper
so the line counter advances). -/
def dropToNewline : List Char → List Char
  | [] => []
  | c :: rest => if c = '\n' then c :: rest else dropToNewline rest

/-- Drop a `/* ... */` block comment body up to and including the
terminating delimiter, counting newlines. -/
def dropBlock : Nat → List Char → Nat → List Char × Nat
  | 0, cs, line => (cs, line)
  | _ + 1, [], line => ([], line)
  | fuel + 1, c :: rest, line =>
    match c :: rest with
    | '*' :: '/' :: rest2 => (rest2, line)
    | _ =>
      if c = '\n' then dropBlock fuel rest (line + 1)
      else dropBlock fuel rest line

/-- Skip whitespace and `//` and `/* */` comments, maintaining the 1-based
line counter. -/
def skipWs : Nat → List Char → Nat → List Char × Nat
  | 0, cs, line => (cs, line)
  | fuel + 1, cs, line =>
    match cs with
    | [] => ([], line)
    | '\n' :: rest => skipWs fuel rest (line + 1)
    | ' ' :: rest => skipWs fuel rest line
    | '\t' :: rest => skipWs fuel rest line
    | '\r' :: rest => skipWs fuel rest line
    | '/' :: '/' :: rest => skipWs fuel (dropToNewline rest) line
    | '/' :: '*' :: rest =>
      let (rest2, line2) := dropBlock fuel rest line
      skipWs fuel rest2 line2
    | _ => (cs, line)

/-- Skip whitespace/comments with a fuel bound derived from the input. -/
def skipAll (cs : List Char) (line : Nat) : List Char × Nat :=
  skipWs (cs.length + 1) cs line

/-- Modelled from the spec: the mapping from primitive type keywords to
type tags (the Type Registry). -/
def typeKeyword : String → Option Type'
  | "bool" => some .Bool
  | "unsigned_int8" => some .UnsignedByte
  | "int8" => some .Byte
  | "unsigned_int16" => some .UnsignedShort
  | "int16" => some .Short
  | "unsigned_int32" => some .UnsignedInt
  | "int32" => some .Int
  | "unsigned_int64" => some .UnsignedLong
  | "int64" => some .Long
  | "float" => some .Float
  | "double" => some .Double
  | "string" => some .String
  | "ref" => some .Reference
  | _ => none

/-- Parse a non-negative integer literal: decimal digits or `0x` hex. -/
def parseNatLit (cs : List Char) : Option (Nat × List Char) :=
  match cs with
  | '0' :: 'x' :: rest =>
    let (ds, rest2) := takeWhileChar isHexDigit rest
    if ds.isEmpty then none else some (hexToNat ds, rest2)
  | _ =>
    let (ds, rest2) := takeWhileChar Char.isDigit cs
    if ds.isEmpty then none else some (digitsToNat ds, rest2)

/-- Value of an escaped character (after the backslash): `\xNN` hex byte
escapes plus the common single-character escapes. -/
def parseEscape (cs : List Char) : Option (Nat × List Char) :=
  match cs with
  | 'x' :: rest =>
    let (ds, rest2) := takeWhileChar isHexDigit rest
    if ds.isEmpty then none else some (hexToNat ds, rest2)
  | 'n' :: rest => some (10, rest)
  | 't' :: rest => some (9, rest)
  | 'r' :: rest => some (13, rest)
  | '0' :: rest => some (0, rest)
  | '\\' :: rest => some (92, rest)
  | '"' :: rest => some (34, rest)
  | c :: rest => if c = sqChar then some (39, rest) else none
  | [] => none

/-- Parse a character literal (single-quoted, possibly escaped) to its
numeric value. -/
def parseCharLit (cs : List Char) : Option (Nat × List Char) :=
  match cs with
  | q :: rest =>
    if q = sqChar then
      match rest with
      | '\\' :: rest2 =>
        match parseEscape rest2 with
        | some (v, q2 :: rest3) => if q2 = sqChar then some (v, rest3) else none
        | _ => none
      | c :: q2 :: rest2 =>
        if q2 = sqChar && c ≠ sqChar then some (c.toNat, rest2) else none
      | _ => none
    else none
  | [] => none

/-- Parse an integer value: optional minus, then a character literal, hex
literal or decimal literal. -/
def parseIntLit (cs : List Char) : Option (Int × List Char) :=
  let (neg, cs1) := match cs with
    | '-' :: rest => (true, rest)
    | _ => (false, cs)
  let core : Option (Nat × List Char) :=
    match cs1 with
    | c :: _ => if c = sqChar then parseCharLit cs1 else parseNatLit cs1
    | [] => none
  match core with
  | some (v, rest) => some (if neg then -(Int.ofNat v) else Int.ofNat v, rest)
  | none => none

/-- The power of ten used for decimal fraction denominators. -/
def pow10 : Nat → Nat
  | 0 => 1
  | n + 1 => 10 * pow10 n

/-- Parse a floating-point literal (optional minus, decimal digits,
optional fraction) to an exact rational. -/
def parseFloatLit (cs : List Char) : Option (Rat × List Char) :=
  let (neg, cs1) := match cs with
    | '-' :: rest => (true, rest)
    | _ => (false, cs)
  let (ds, cs2) := takeWhileChar Char.isDigit cs1
  if ds.isEmpty then none
  else
    let sign : Int := if neg then -1 else 1
    let ip := digitsToNat ds
    match cs2 with
    | '.' :: rest =>
      let (fs, rest2) := takeWhileChar Char.isDigit rest
      let den := pow10 fs.length
      some (mkRat (sign * Int.ofNat (ip * den + digitsToNat fs)) den, rest2)
    | _ => some (mkRat (sign * Int.ofNat ip) 1, cs2)

/-- Parse a double-quoted string literal with escapes. -/
def parseStringBody : Nat → List Char → List Char → Option (String × List Char)
  | 0, _, _ => none
  | _ + 1, [], _ => none
  | fuel + 1, c :: rest, acc =>
    if c = '"' then some (String.mk acc.reverse, rest)
    else if c = '\\' then
      match parseEscape rest with
      | some (v, rest2) => parseStringBody fuel rest2 (Char.ofNat v :: acc)
      | none => none
    else parseStringBody fuel rest (c :: acc)

/-- Parse a string literal including the opening quote. -/
def parseStringLit (cs : List Char) : Option (String × List Char) :=
  match cs with
  | '"' :: rest => parseStringBody (rest.length + 1) rest []
  | _ => none

/-- Parse a `%local` or `$global` name, returned with its prefix. -/
def parseNameTok (cs : List Char) : Option (String × List Char) :=
  match cs with
  | c :: c2 :: rest =>
    if (c = '%' || c = '$') && isIdentStart c2 then
      let (ws, rest2) := takeWhileChar isIdentChar (c2 :: rest)
      some (String.mk (c :: ws), rest2)
    else none
  | _ => none

/-- Parse one value of a given primitive type inside a value list.  A
failure message is reported with the current line (no such message is
reachable from the scenarios in scope; structural errors are caught by the
delimiter checks around the value). -/
def parseValue (τ : Type') (cs : List Char) (line : Nat) :
    Except String (Value × List Char) :=
  let bad : Except String (Value × List Char) :=
    .error ("invalid value on line " ++ toString line)
  match τ with
  | .Bool =>
    let (ws, rest) := takeWhileChar isIdentChar cs
    if String.mk ws = "true" then .ok (.bool true, rest)
    else if String.mk ws = "false" then .ok (.bool false, rest)
    else bad
  | .Float | .Double =>
    match parseFloatLit cs with
    | some (q, rest) => .ok (.rat q, rest)
    | none => bad
  | .String =>
    match parseStringLit cs with
    | some (s, rest) => .ok (.str s, rest)
    | none => bad
  | .Reference =>
    match parseNameTok cs with
    | some (s, rest) => .ok (.str s, rest)
    | none =>
      let (ws, rest) := takeWhileChar isIdentChar cs
      if String.mk ws = "null" then .ok (.str "null", rest) else bad
  | .Custom => bad
  | _ =>
    match parseIntLit cs with
    | some (v, rest) => .ok (.int v, rest)
    | none => bad

/-- Parse a flat (non-subarray) primitive value list after the opening
brace, up to and including the closing brace.  An empty list is legal.
Delimiter violations report `expected , character` / `expected }
character` with the current line, as pinned by
`Test::primitiveExpectedSeparator` and `Test::primitiveExpectedListEnd`. -/
def parseValues : Nat → Type' → List Char → Nat → Bool → List Value →
    Except String (List Value × List Char × Nat)
  | 0, _, _, line, _, _ => .error ("expected \x7d character on line " ++ toString line)
  | fuel + 1, τ, cs, line, first, acc =>
    let (cs1, line1) := skipAll cs line
    match cs1 with
    | [] => .error ("expected \x7d character on line " ++ toString line1)
    | c :: rest =>
      if first && c = '}' then .ok (acc.reverse, rest, line1)
      else
        match parseValue τ cs1 line1 with
        | .error e => .error e
        | .ok (v, cs2) =>
          let (cs3, line3) := skipAll cs2 line1
          match cs3 with
          | [] => .error ("expected \x7d character on line " ++ toString line3)
          | c2 :: rest2 =>
            if c2 = '}' then .ok ((v :: acc).reverse, rest2, line3)
            else if c2 = ',' then parseValues fuel τ rest2 line3 false (v :: acc)
            else .error ("expected , character on line " ++ toString line3)

/-- Parse the inside of one sub-array group after its opening brace:
exactly `remaining` values separated by commas, then the closing brace.  A
surplus value reports `expected } character`, as pinned by
`Test::primitiveSubArrayExpectedSubListEnd`. -/
def parseGroupItems : Nat → Type' → Nat → List Char → Nat → List Value →
    Except String (List Value × List Char × Nat)
  | 0, _, _, _, line, _ => .error ("expected \x7d character on line " ++ toString line)
  | fuel + 1, τ, remaining, cs, line, acc =>
    let (cs1, line1) := skipAll cs line
    match parseValue τ cs1 line1 with
    | .error e => .error e
    | .ok (v, cs2) =>
      let (cs3, line3) := skipAll cs2 line1
      if remaining ≤ 1 then
        match cs3 with
        | '}' :: rest => .ok ((v :: acc).reverse, rest, line3)
        | _ => .error ("expected \x7d character on line " ++ toString line3)
      else
        match cs3 with
        | ',' :: rest => parseGroupItems fuel τ (remaining - 1) rest line3 (v :: acc)
        | _ => .error ("expected , character on line " ++ toString line3)

/-- Parse a sub-array value list after the opening brace of the outer
list: comma-separated groups `{ v, ..., v }` of exactly `n` values each, up
to and including the outer closing brace.  An empty outer list is legal.  A
missing separator between groups reports `expected , character`, as pinned
by `Test::primitiveSubArrayExpectedSubSeparator`. -/
def parseGroups : Nat → Type' → Nat → List Char → Nat → Bool → List Value →
    Except String (List Value × List Char × Nat)
  | 0, _, _, _, line, _, _ => .error ("expected \x7d character on line " ++ toString line)
  | fuel + 1, τ, n, cs, line, first, acc =>
    let (cs1, line1) := skipAll cs line
    match cs1 with
    | [] => .error ("expected \x7d character on line " ++ toString line1)
    | c :: rest =>
      if first && c = '}' then .ok (acc, rest, line1)
      else if c = '{' then
        match parseGroupItems fuel τ n rest line1 [] with
        | .error e => .error e
        | .ok (vs, cs2, line2) =>
          let (cs3, line3) := skipAll cs2 line2
          match cs3 with
          | [] => .error ("expected \x7d character on line " ++ toString line3)
          | c2 :: rest2 =>
            if c2 = '}' then .ok (acc ++ vs, rest2, line3)
            else if c2 = ',' then parseGroups fuel τ n rest2 line3 false (acc ++ vs)
            else .error ("expected , character on line " ++ toString line3)
      else .error ("expected \x7b character on line " ++ toString line1)

/-- Parse a property value, inferring its primitive type from the literal
form (string, reference name, `null`, boolean keyword, or numeric with or
without a fraction).  An unrecognized token reports `invalid property value`
with the current line, as pinned by `Test::customPropertyInvalidValue`. -/
def parsePropertyValue (cs : List Char) (line : Nat) :
    Except String ((Type' × Value) × List Char) :=
  let bad : Except String ((Type' × Value) × List Char) :=
    .error ("invalid property value on line " ++ toString line)
  match cs with
  | [] => bad
  | c :: _ =>
    if c = '"' then
      match parseStringLit cs with
      | some (s, rest) => .ok ((.String, .str s), rest)
      | none => bad
    else if c = '%' || c = '$' then
      match parseNameTok cs with
      | some (s, rest) => .ok ((.Reference, .str s), rest)
      | none => bad
    else if isIdentStart c then
      let (ws, rest) := takeWhileChar isIdentChar cs
      if String.mk ws = "true" then .ok ((.Bool, .bool true), rest)
      else if String.mk ws = "false" then .ok ((.Bool, .bool false), rest)
      else if String.mk ws = "null" then .ok ((.Reference, .str "null"), rest)
      else bad
    else if c = '-' || c.isDigit || c = sqChar then
      let scan := match cs with
        | '-' :: rest => rest
        | _ => cs
      let isFloat := match scan with
        | '0' :: 'x' :: _ => false
        | q :: _ =>
          if q = sqChar then false
          else
            let (ds, rest2) := takeWhileChar Char.isDigit scan
            !ds.isEmpty && (match rest2 with | '.' :: _ => true | _ => false)
        | [] => false
      if isFloat then
        match parseFloatLit cs with
        | some (q, rest) => .ok ((.Float, .rat q), rest)
        | none => bad
      else
        match parseIntLit cs with
        | some (v, rest) => .ok ((.Int, .int v), rest)
        | none => bad
    else bad

/-- Replace the structure record at an arena index. -/
def updateStructure (d : Document) (i : Nat) (f : StructureData → StructureData) :
    Document :=
  { d with structures := d.structures.set i (f (d.structureAt i)) }

/-- Append values to the data array of one primitive type. -/
def appendValues (d : Document) (τ : Type') (vs : List Value) : Document :=
  { d with dataArrays := d.dataArrays.set τ.toNat (d.data τ ++ vs) }

/-- Append one property record, storing its scalar value in the data array
of its type. -/
def appendProperty (d : Document) (pid : Int) (τ : Type') (v : Value) : Document :=
  let b := (d.data τ).length
  let d2 := appendValues d τ [v]
  { d2 with properties := d2.properties ++ [{ identifier := pid, type := τ, dataBegin := b }] }

/-- Link a run of sibling structure indices through their `next` fields. -/
def linkSiblings : Document → List Nat → Document
  | d, [] => d
  | d, [_] => d
  | d, a :: b :: rest =>
    linkSiblings (updateStructure d a (fun s => { s with next := b })) (b :: rest)

/-- Set a parent's `firstChild` to the head of a child index list and chain
the children's `next` links in source order. -/
def linkChildren (d : Document) (parent : Nat) (idxs : List Nat) : Document :=
  let d1 := updateStructure d parent (fun s => { s with firstChild := idxs.headD 0 })
  linkSiblings d1 idxs

/-- Modelled from the spec: the property list parser, `( ident = value,
... )` after the opening parenthesis.  Duplicate identifiers are accepted
and appended in source order (not merged); an unknown property keyword
resolves to the `UnknownIdentifier` sentinel.  Messages are pinned by
`Test::customPropertyExpectedValueAssignment`,
`Test::customPropertyExpectedSeparator`,
`Test::customPropertyExpectedListEnd` and
`Test::customPropertyInvalidIdentifier`.  Returns the updated document, the
number of properties appended, the rest of the input and the line. -/
def parseProps : Nat → Document → List Char → Nat → Bool → Nat →
    Except String (Document × Nat × List Char × Nat)
  | 0, _, _, line, _, _ => .error ("expected ) character on line " ++ toString line)
  | fuel + 1, d, cs, line, first, count =>
    let (cs1, line1) := skipAll cs line
    match cs1 with
    | [] => .error ("expected ) character on line " ++ toString line1)
    | c :: _ =>
      if first && c = ')' then
        .ok (d, count, cs1.tail, line1)
      else if !isIdentStart c then
        .error ("invalid identifier on line " ++ toString line1)
      else
        let (ws, cs2) := takeWhileChar isIdentChar cs1
        let pid := lookupIdentifier d.propertyIdentifiers 0 (String.mk ws)
        let (cs3, line3) := skipAll cs2 line1
        match cs3 with
        | '=' :: rest =>
          let (cs4, line4) := skipAll rest line3
          match parsePropertyValue cs4 line4 with
          | .error e => .error e
          | .ok ((τ, v), cs5) =>
            let d2 := appendProperty d pid τ v
            let (cs6, line6) := skipAll cs5 line4
            match cs6 with
            | [] => .error ("expected ) character on line " ++ toString line6)
            | ')' :: rest2 => .ok (d2, count + 1, rest2, line6)
            | ',' :: rest2 => parseProps fuel d2 rest2 line6 false (count + 1)
            | _ => .error ("expected , character on line " ++ toString line6)
        | _ => .error ("expected = character on line " ++ toString line3)

/-- Modelled from the spec: the recursive-descent parser core.  Parses a
sequence of structures (the whole document when `top`, otherwise the
children of a custom structure up to and including the closing brace),
appending structure records to the arena in discovery order, setting
`parent` at creation and fixing `firstChild`/`next` links once a child list
is complete.  Primitive structures follow `primitiveType ['[' INT ']']
[name] '{' ... '}'` with a zero sub-array size rejected as `invalid
subarray size`; custom structures follow `IDENTIFIER [name] ['(' props ')']
'{' structure* '}'` with the identifier resolved against the
caller-supplied table.  All messages carry the 1-based line and are pinned
by the corresponding `Test.cpp` cases. -/
def parseStructs : Nat → Document → List Char → Nat → Nat → List Nat → Bool →
    Except String (Document × List Nat × List Char × Nat)
  | 0, _, _, line, _, _, _ => .error ("expected \x7d character on line " ++ toString line)
  | fuel + 1, d, cs, line, parent, acc, top =>
    let (cs1, line1) := skipAll cs line
    match cs1 with
    | [] =>
      if top then .ok (d, acc.reverse, [], line1)
      else .error ("expected \x7d character on line " ++ toString line1)
    | c :: rest =>
      if c = '}' then
        if top then .error ("invalid identifier on line " ++ toString line1)
        else .ok (d, acc.reverse, rest, line1)
      else if !isIdentStart c then
        .error ("invalid identifier on line " ++ toString line1)
      else
        let (ws, cs2) := takeWhileChar isIdentChar cs1
        let w := String.mk ws
        match typeKeyword w with
        | some τ =>
          let (cs3, line3) := skipAll cs2 line1
          let subParsed : Except String (Nat × List Char × Nat) :=
            match cs3 with
            | '[' :: r =>
              let (r1, l1) := skipAll r line3
              match parseNatLit r1 with
              | none => .error ("invalid subarray size on line " ++ toString l1)
              | some (n, r2) =>
                if n = 0 then .error ("invalid subarray size on line " ++ toString l1)
                else
                  let (r3, l3) := skipAll r2 l1
                  match r3 with
                  | ']' :: r4 => .ok (n, r4, l3)
                  | _ => .error ("expected ] character on line " ++ toString l3)
            | _ => .ok (0, cs3, line3)
          match subParsed with
          | .error e => .error e
          | .ok (sub, cs4, line4) =>
            let (cs5, line5) := skipAll cs4 line4
            let (nameIdx, d2, cs6) :=
              match parseNameTok cs5 with
              | some (nm, r) => (d.strings.length, { d with strings := d.strings ++ [nm] }, r)
              | none => (0, d, cs5)
            let (cs7, line7) := skipAll cs6 line5
            match cs7 with
            | '{' :: r =>
              let listParsed :=
                if sub = 0 then parseValues (r.length + 1) τ r line7 true []
                else parseGroups (r.length + 1) τ sub r line7 true []
              match listParsed with
              | .error e => .error e
              | .ok (vs, cs8, line8) =>
                let b := (d2.data τ).length
                let d3 := appendValues d2 τ vs
                let idx := d3.structures.length
                let sd : StructureData :=
                  { typeTag := τ.toNat, identifier := 0, name := nameIdx,
                    parent := parent, firstChild := 0, next := 0,
                    dataBegin := b, dataSize := vs.length, subArraySize := sub,
                    propertiesBegin := 0, propertiesSize := 0 }
                let d4 := { d3 with structures := d3.structures ++ [sd] }
                parseStructs fuel d4 cs8 line8 parent (idx :: acc) top
            | _ => .error ("expected \x7b character on line " ++ toString line7)
        | none =>
          let id := lookupIdentifier d.structureIdentifiers 0 w
          let (cs3, line3) := skipAll cs2 line1
          let (nameIdx, d2, cs4) :=
            match parseNameTok cs3 with
            | some (nm, r) => (d.strings.length, { d with strings := d.strings ++ [nm] }, r)
            | none => (0, d, cs3)
          let (cs5, line5) := skipAll cs4 line3
          let propsBegin := d2.properties.length
          let propsParsed : Except String (Document × Nat × List Char × Nat) :=
            match cs5 with
            | '(' :: r => parseProps (r.length + 1) d2 r line5 true 0
            | _ => .ok (d2, 0, cs5, line5)
          match propsParsed with
          | .error e => .error e
          | .ok (d3, propCount, cs6, line6) =>
            let (cs7, line7) := skipAll cs6 line6
            match cs7 with
            | '{' :: r =>
              let idx := d3.structures.length
              let sd : StructureData :=
                { typeTag := customTag, identifier := id, name := nameIdx,
                  parent := parent, firstChild := 0, next := 0,
                  dataBegin := 0, dataSize := 0, subArraySize := 0,
                  propertiesBegin := propsBegin, propertiesSize := propCount }
              let d4 := { d3 with structures := d3.structures ++ [sd] }
              match parseStructs fuel d4 r line7 idx [] false with
              | .error e => .error e
              | .ok (d5, childIdxs, cs8, line8) =>
                let d6 := linkChildren d5 idx childIdxs
                parseStructs fuel d6 cs8 line8 parent (idx :: acc) top
            | _ => .error ("expected \x7b character on line " ++ toString line7)

/-- Modelled from the spec: `Document::parse(text, structureIdentifiers,
propertyIdentifiers)`.  Parses the whole buffer in one pass into a fresh
document; on the first structural violation it returns the diagnostic
message (the text after the `OpenDdl::Document::parse(): ` prefix) and the
document is discarded. -/
def parse (src : String) (structureIds propertyIds : List String) :
    Except String Document :=
  let cs := src.data
  let d0 : Document :=
    { emptyDocument with structureIdentifiers := structureIds,
                         propertyIdentifiers := propertyIds }
  match parseStructs (2 * cs.length + 4) d0 cs 1 0 [] true with
  | .error e => .error e
  | .ok (d, idxs, _, _) => .ok (linkChildren d 0 idxs)

/-- The parsed document, or the empty document when parsing failed (used
to name the result of a successful parse in theorem statements). -/
def parseDoc (src : String) (structureIds propertyIds : List String) : Document :=
  match parse src structureIds propertyIds with
  | .ok d => d
  | .error _ => emptyDocument

namespace Structure

/-- `Structure::type()` from `Structure.h`: the stored type tag clamped by
`std::min(Type::Custom, _data.get().primitive.type)`. -/
def type (d : Document) (i : Nat) : Type' :=
  typeFromTag (min customTag (d.structureAt i).typeTag)

/-- `Structure::isCustom()` from `Structure.h`: whether `type()` is the
`Custom` sentinel. -/
def isCustom (d : Document) (i : Nat) : Bool :=
  type d i = Type'.Custom

/-- `Structure::identifier()` (the defensive assertion that the structure
is custom is caller misuse and not modelled; the stored identifier is
returned). -/
def identifier (d : Document) (i : Nat) : Int :=
  (d.structureAt i).identifier

/-- `Structure::name()`: the string-table entry referenced by the record
(index 0 is the reserved empty string, so unnamed structures read ""). -/
def name (d : Document) (i : Nat) : String :=
  d.strings.getD (d.structureAt i).name ""

/-- `Structure::hasName()`. -/
def hasName (d : Document) (i : Nat) : Bool :=
  (d.structureAt i).name ≠ 0

/-- `Structure::arraySize()`: the primitive payload element count. -/
def arraySize (d : Document) (i : Nat) : Nat :=
  (d.structureAt i).dataSize

/-- `Structure::subArraySize()`: the declared sub-array group size, 0 when
the array has no sub-arrays. -/
def subArraySize (d : Document) (i : Nat) : Nat :=
  (d.structureAt i).subArraySize

/-- `Structure::hasChildren()`. -/
def hasChildren (d : Document) (i : Nat) : Bool :=
  (d.structureAt i).firstChild ≠ 0

/-- Walk a sibling chain starting from an arena index (0 terminates),
yielding indices in chain order. -/
def chainFrom (d : Document) : Nat → Nat → List Nat
  | 0, _ => []
  | _ + 1, 0 => []
  | fuel + 1, i => i :: chainFrom d fuel (d.structureAt i).next

/-- `Structure::children()`: the child indices in source order, obtained by
walking `firstChild` then the `next` chain (the lazy `StructureList`
iteration materialized as a list). -/
def children (d : Document) (i : Nat) : List Nat :=
  chainFrom d d.structures.length (d.structureAt i).firstChild

/-- `Structure::childrenOf(identifier)`: the children restricted to custom
structures with the given identifier, in source order (equivalent to the
`findFirstChildOf`/`findNextOf` chain walk). -/
def childrenOf (d : Document) (i : Nat) (id : Int) : List Nat :=
  (children d i).filter (fun j => isCustom d j && identifier d j = id)

/-- The contiguous property run of a custom structure, in source order
(`Structure::properties()` materialized). -/
def propertiesList (d : Document) (i : Nat) : List PropertyData :=
  (d.properties.drop (d.structureAt i).propertiesBegin).take
    (d.structureAt i).propertiesSize

/-- `Structure::propertyCount()`. -/
def propertyCount (d : Document) (i : Nat) : Nat :=
  (d.structureAt i).propertiesSize

/-- Modelled from the spec and pinned by `Test::hierarchy`:
`Structure::findPropertyOf(identifier)` scans the structure's property run
and keeps the match it saw last, so for duplicated identifiers the later
occurrence wins (the test parses `(some = 15.0, some = 0.5)` and requires
the returned property's value to be `0.5`, with the source comment
`duplicates are ignored` on the earlier one). -/
def findPropertyOf (d : Document) (i : Nat) (id : Int) : Option PropertyData :=
  (propertiesList d i).foldl
    (fun acc p => if p.identifier = id then some p else acc) none

/-- `isStructureType<T>(type)` from `Structure.h`: each specialization is
an exact equality test against the accessed type's tag. -/
def isStructureType (τ actual : Type') : Bool :=
  actual = τ

/-- `Structure::as<T>()` from `Structure.h`: asserts `arraySize() == 1`,
then asserts `isStructureType<T>(type())`, then returns the element of the
document's type-`T` data array at the structure's begin offset.  The two
`CORRADE_ASSERT` messages are modelled as the error results. -/
def as (d : Document) (i : Nat) (τ : Type') : Except String Value :=
  if arraySize d i ≠ 1 then
    .error "OpenDdl::Structure::as(): not a single value"
  else if !isStructureType τ (type d i) then
    .error "OpenDdl::Structure::as(): not of given type"
  else
    .ok ((d.data τ).getD (d.structureAt i).dataBegin (Value.int 0))

/-- `Structure::asArray<T>()` from `Structure.h`: asserts the type matches,
then returns the view `{data + begin, size}` over the contiguous range. -/
def asArray (d : Document) (i : Nat) (τ : Type') : Except String (List Value) :=
  if !isStructureType τ (type d i) then
    .error "OpenDdl::Structure::asArray(): not of given type"
  else
    .ok (((d.data τ).drop (d.structureAt i).dataBegin).take (d.structureAt i).dataSize)

end Structure

namespace Property

/-- `Property::as<T>()`: the scalar value stored for the property in the
data array of its type. -/
def as (d : Document) (p : PropertyData) : Value :=
  (d.data p.type).getD p.dataBegin (Value.int 0)

/-- Modelled from the spec: `Property::isTypeCompatibleWith(PropertyType)`:
an exact type match, widened so an integer-typed stored value is compatible
with a float- or double-typed check. -/
def isTypeCompatibleWith (stored target : Type') : Bool :=
  stored = target || (isIntegralType stored && (target = .Float || target = .Double))

end Property

/-- `Document::children()`: the top-level structures in source order. -/
def Document.children (d : Document) : List Nat :=
  Structure.children d 0

/-- `Document::childrenOf(identifier)`. -/
def Document.childrenOf (d : Document) (id : Int) : List Nat :=
  Structure.childrenOf d 0 id

/-- `Document::firstChild()`: the first top-level structure's index. -/
def Document.firstChild (d : Document) : Nat :=
  (d.structureAt 0).firstChild

/-- `Document::isEmpty()`. -/
def Document.isEmpty (d : Document) : Bool :=
  (d.structureAt 0).firstChild = 0

namespace Validation

/-- `Validation::Property` from `Validation.h`: a property identifier, its
expected type and whether it is required (the `RequiredProperty` /
`OptionalProperty` tag). -/
structure Property where
  identifier : Int
  type : Type'
  required : Bool
deriving DecidableEq, Repr

/-- `Validation::Structure` from `Validation.h`: a structure identifier,
the allowed properties, the allowed primitive sub-structure types, the
expected primitive sub-structure count (0 = unconstrained), the expected
primitive array size (0 = unconstrained), and the allowed custom
sub-structures with their inclusive `(min, max)` occurrence bounds (the
`Validation::Structures` entries, flattened to triples; max 0 = no upper
limit). -/
structure Structure where
  identifier : Int
  properties : List Property
  primitives : List Type'
  primitiveCount : Nat
  primitiveArraySize : Nat
  structures : List (Int × Int × Int)
deriving DecidableEq, Repr

end Validation

/-- Name of a structure identifier for validation messages, looked up in
the identifier table the document was parsed with. -/
def structureNameOf (d : Document) (id : Int) : String :=
  if id < 0 then "(unknown)" else d.structureIdentifiers.getD id.toNat "(unknown)"

/-- Name of a property identifier for validation messages. -/
def propertyNameOf (d : Document) (id : Int) : String :=
  if id < 0 then "(unknown)" else d.propertyIdentifiers.getD id.toNat "(unknown)"

/-- The rule registered for a structure identifier, if any. -/
def findRule (rules : List Validation.Structure) (id : Int) :
    Option Validation.Structure :=
  rules.find? (fun r => r.identifier = id)

/-- The `(min, max)` bound registered for a structure identifier in a
level's allowed-structure list, if any. -/
def findBound (allowed : List (Int × Int × Int)) (id : Int) :
    Option (Int × Int) :=
  (allowed.find? (fun e => e.1 = id)).map (fun e => (e.2.1, e.2.2))

/-- Modelled from the spec: step (a) of the validator: tally the custom
structures of each identifier in the allowed list against its inclusive
`(min, max)` bound (max 0 = no upper limit).  Messages pinned by
`Test::validateTooManyStructures` and `Test::validateTooLittleStructures`. -/
def checkCounts (d : Document) (childIdxs : List Nat) :
    List (Int × Int × Int) → Except String Unit
  | [] => .ok ()
  | (id, mn, mx) :: rest =>
    let g : Int :=
      Int.ofNat ((childIdxs.filter
        (fun j => Structure.isCustom d j && Structure.identifier d j = id)).length)
    if mx ≠ 0 && g > mx then
      .error ("too many " ++ structureNameOf d id ++ " structures, got " ++
        toString g ++ " but expected max " ++ toString mx)
    else if g < mn then
      .error ("too little " ++ structureNameOf d id ++ " structures, got " ++
        toString g ++ " but expected min " ++ toString mn)
    else checkCounts d childIdxs rest

/-- Modelled from the spec: the primitive sub-structure checks of a known
custom structure (step (d)): every primitive child's type must be in the
rule's allowed-primitive set, the primitive child count must equal the
expected count when that is nonzero, and every primitive child's array size
must equal the expected size when that is nonzero.  Messages pinned by
`Test::validateWrongPrimitiveType`, `Test::validateTooManyPrimitives` and
`Test::validateUnexpectedPrimitiveArraySize`. -/
def checkPrimitives (d : Document) (rule : Validation.Structure)
    (primChildren : List Nat) : Except String Unit :=
  let sname := structureNameOf d rule.identifier
  match primChildren.find? (fun p => !(rule.primitives.contains (Structure.type d p))) with
  | some p =>
    .error ("unexpected sub-structure of type " ++ typeName (Structure.type d p) ++
      " in structure " ++ sname)
  | none =>
    if rule.primitiveCount ≠ 0 && primChildren.length ≠ rule.primitiveCount then
      .error ("expected exactly " ++ toString rule.primitiveCount ++
        " primitive sub-structures in structure " ++ sname)
    else
      match primChildren.find?
        (fun p => rule.primitiveArraySize ≠ 0 &&
          Structure.arraySize d p ≠ rule.primitiveArraySize) with
      | some _ =>
        .error ("expected exactly " ++ toString rule.primitiveArraySize ++
          " values in " ++ sname ++ " sub-structure")
      | none => .ok ()

/-- Modelled from the spec: the property checks of a known custom structure
(step (e)): every required property of the rule must be present; every
property present must be declared in the rule (unknown-identifier
properties are tolerated) and its stored type must pass
`isTypeCompatibleWith` against the declared type.  The missing-property and
unexpected-property messages are pinned by `Test::validateExpectedProperty`
and `Test::validateUnexpectedProperty`; the type-mismatch message — with
the space the C++ stream inserts between the interpolated property name and
the following `, expected` — is pinned verbatim by
`Test::validateWrongPropertyType`. -/
def checkPropertyRun (d : Document) (rule : Validation.Structure)
    (sname : String) : List PropertyData → Except String Unit
  | [] => .ok ()
  | p :: rest =>
    if p.identifier = UnknownIdentifier then checkPropertyRun d rule sname rest
    else
      match rule.properties.find? (fun rp => rp.identifier = p.identifier) with
      | none =>
        .error ("unexpected property " ++ propertyNameOf d p.identifier ++
          " in structure " ++ sname)
      | some rp =>
        if !(Property.isTypeCompatibleWith p.type rp.type) then
          .error ("unexpected type of property " ++ propertyNameOf d p.identifier ++
            " , expected " ++ propertyTypeName rp.type)
        else checkPropertyRun d rule sname rest

/-- Modelled from the spec: the required-property presence check followed
by the per-property declaration and type checks (see `checkPropertyRun`). -/
def checkProperties (d : Document) (rule : Validation.Structure) (i : Nat) :
    Except String Unit :=
  let sname := structureNameOf d rule.identifier
  let props := Structure.propertiesList d i
  match rule.properties.find?
    (fun rp => rp.required && !(props.any (fun p => p.identifier = rp.identifier))) with
  | some rp =>
    .error ("expected property " ++ propertyNameOf d rp.identifier ++
      " in structure " ++ sname)
  | none => checkPropertyRun d rule sname props

/-- Modelled from the spec: the depth-first validator walk.  At each level
it first tallies the custom structures against the level's allowed list
(`countsDone` distinguishes the tally pass from the per-child pass so the
function stays singly recursive), then processes the children in source
order: a primitive structure directly in the root is rejected, a custom
structure with the unknown-identifier sentinel is skipped together with its
whole subtree, a known structure absent from the level's allowed list is
rejected, a structure without a registered rule is skipped, and a structure
with a rule has its primitives and properties checked before descending
into its children under the rule's own allowed list. -/
def validateLevel : Nat → Document → List Validation.Structure →
    List (Int × Int × Int) → Bool → Bool → List Nat → Except String Unit
  | 0, _, _, _, _, _, _ => .error "validation recursion limit exceeded"
  | fuel + 1, d, rules, allowed, atRoot, countsDone, childIdxs =>
    if !countsDone then
      match checkCounts d childIdxs allowed with
      | .error e => .error e
      | .ok _ => validateLevel fuel d rules allowed atRoot true childIdxs
    else
      match childIdxs with
      | [] => .ok ()
      | j :: rest =>
        let step : Except String Unit :=
          if !(Structure.isCustom d j) then
            if atRoot then .error "unexpected primitive structure in root"
            else .ok ()
          else if Structure.identifier d j = UnknownIdentifier then .ok ()
          else
            match findBound allowed (Structure.identifier d j) with
            | none => .error ("unexpected structure " ++
                structureNameOf d (Structure.identifier d j))
            | some _ =>
              match findRule rules (Structure.identifier d j) with
              | none => .ok ()
              | some rule =>
                let cs := Structure.children d j
                match checkPrimitives d rule
                  (cs.filter (fun p => !(Structure.isCustom d p))) with
                | .error e => .error e
                | .ok _ =>
                  match checkProperties d rule j with
                  | .error e => .error e
                  | .ok _ =>
                    validateLevel fuel d rules rule.structures false false cs
        match step with
        | .error e => .error e
        | .ok _ => validateLevel fuel d rules allowed atRoot true rest

/-- Modelled from the spec: `Document::validate(allowedRootStructures,
structureRules)`: the fail-fast schema check over the whole document,
returning the first violation's message (the text after the
`OpenDdl::Document::validate(): ` prefix) or success. -/
def Document.validate (d : Document) (allowedRoot : List (Int × Int × Int))
    (rules : List Validation.Structure) : Except String Unit :=
  validateLevel (2 * d.structures.length + 4) d rules allowedRoot true false
    d.children

/-! Concrete scenarios from `Test.cpp`, used by the theorems below. -/

/-- The structure identifier table of the custom-structure tests
(`Some` = 0, `Root` = 1, `Hierarchic` = 2). -/
def structureIdentifiers : List String := ["Some", "Root", "Hierarchic"]

/-- The property identifier table of the custom-structure tests
(`some` = 0, `boolean` = 1, `reference` = 2). -/
def propertyIdentifiers : List String := ["some", "boolean", "reference"]

/-- The single-quote character as a string (for building source texts with
character literals). -/
def sqStr : String := (Char.ofNat 39).toString

/-- The input of `Test::primitive`: `int16 { 35, -'\x0c', 45 }`. -/
def srcPrimitive : String :=
  "int16 \x7b 35, -" ++ sqStr ++ "\\x0c" ++ sqStr ++ ", 45 \x7d"

/-- The document parsed by `Test::primitive`. -/
def dPrimitive : Document := parseDoc srcPrimitive [] []

/-- The root structure of the `Test::hierarchy` input (the duplicate
`some` property scenario):
`Root (some = 15.0, some = 0.5) { string { "hello", "world"} }`. -/
def srcHierarchyRoot : String :=
  "Root (some = 15.0, some = 0.5) \x7b string \x7b \"hello\", \"world\"\x7d \x7d"

/-- The document parsed from `srcHierarchyRoot` with the custom identifier
tables. -/
def dHierarchyRoot : Document :=
  parseDoc srcHierarchyRoot structureIdentifiers propertyIdentifiers

/-- The input of `Test::validateWrongPropertyType`:
`Root (some = false) {}`. -/
def srcWrongPropertyType : String := "\nRoot (some = false) \x7b\x7d\n    "

/-- The document parsed from `srcWrongPropertyType`. -/
def dWrongPropertyType : Document :=
  parseDoc srcWrongPropertyType structureIdentifiers propertyIdentifiers

/-- The rule set of `Test::validateWrongPropertyType`: `Root` requires a
float-typed `some` property. -/
def rulesWrongPropertyType : List Validation.Structure :=
  [{ identifier := 1,
     properties := [{ identifier := 0, type := .Float, required := true }],
     primitives := [], primitiveCount := 0, primitiveArraySize := 0,
     structures := [] }]

/-- The input of `Test::customUnknown`: `UnspecifiedStructure {}`, a
keyword absent from the structure identifier table. -/
def srcCustomUnknown : String := "UnspecifiedStructure \x7b\x7d"

/-- The document parsed from `srcCustomUnknown`. -/
def dCustomUnknown : Document :=
  parseDoc srcCustomUnknown structureIdentifiers propertyIdentifiers

/-- The input of `Test::documentChildren`: five top-level structures, one
of them (`Unknown %unknown`) with a keyword absent from the table. -/
def srcDocumentChildren : String :=
  "\nRoot %root1 \x7b\x7d\nHierarchic %hierarchic1 \x7b\n    Root %root2 \x7b\x7d\n    Hierarchic %hierarchic2 \x7b\x7d\n\x7d\nHierarchic %hierarchic3 \x7b\x7d\nUnknown %unknown \x7b\x7d\nRoot %root3 \x7b\x7d\n    "

/-- The document parsed from `srcDocumentChildren`. -/
def dDocumentChildren : Document :=
  parseDoc srcDocumentChildren structureIdentifiers propertyIdentifiers

/-- The input of `Test::validateUnknownStructure`: a conforming `Root`
next to `Unknown { Root { int32 {} } }`, whose inner `Root` would violate
the `Root` rule. -/
def srcUnknownStructure : String :=
  "\nRoot \x7b string \x7b \"hello\" \x7d \x7d\n\nUnknown \x7b Root \x7b int32 \x7b\x7d \x7d \x7d\n    "

/-- The document parsed from `srcUnknownStructure`. -/
def dUnknownStructure : Document :=
  parseDoc srcUnknownStructure structureIdentifiers propertyIdentifiers

/-- The rule set of `Test::validateUnknownStructure`: `Root` must contain
exactly one string primitive with exactly one value. -/
def rulesUnknownStructure : List Validation.Structure :=
  [{ identifier := 1, properties := [], primitives := [.String],
     primitiveCount := 1, primitiveArraySize := 1, structures := [] }]

/-- The input of `Test::primitiveSubArrayEmpty`: `unsigned_int8[2] {}`. -/
def srcSubArrayEmpty : String := "unsigned_int8[2] \x7b\x7d"

/-- The document parsed from `srcSubArrayEmpty`. -/
def dSubArrayEmpty : Document := parseDoc srcSubArrayEmpty [] []

/-- The input of `Test::primitiveSubArrayInvalidSize`:
`unsigned_int8[0] {}`. -/
def srcSubArrayInvalidSize : String := "unsigned_int8[0] \x7b\x7d"

/-- The input of `Test::validateTooManyStructures`: three top-level `Root`
structures. -/
def srcTooManyStructures : String :=
  "\nRoot \x7b \x7d\nRoot \x7b \x7d\nRoot \x7b \x7d\n    "

/-- The document parsed from `srcTooManyStructures`. -/
def dTooManyStructures : Document :=
  parseDoc srcTooManyStructures structureIdentifiers propertyIdentifiers

/-- The rule set of `Test::validateTooManyStructures`: an unconstrained
`Root` rule (the occurrence bound lives in the root allowed list). -/
def rulesTooManyStructures : List Validation.Structure :=
  [{ identifier := 1, properties := [], primitives := [],
     primitiveCount := 0, primitiveArraySize := 0, structures := [] }]

/-- The input of `Test::primitiveExpectedListStart`: `float 35`, a
primitive type keyword not followed by a value-list opening brace. -/
def srcExpectedListStart : String := "float 35"

end OpenDdl

namespace OpenDdl

/-- C6: parsing `int16 { 35, -'\x0c', 45 }` with empty identifier tables
succeeds and produces exactly one root structure, which is primitive with
`type() == Short`, `arraySize() == 3`, `subArraySize() == 0`, and
`asArray<Short>()` equal to `[35, -12, 45]` (the hex-escaped char literal
negated). -/
theorem c6_primitive_parse :
    parse srcPrimitive [] [] = Except.ok dPrimitive ∧
    Document.children dPrimitive = [1] ∧
    Structure.isCustom dPrimitive 1 = false ∧
    Structure.type dPrimitive 1 = Type'.Short ∧
    Structure.arraySize dPrimitive 1 = 3 ∧
    Structure.subArraySize dPrimitive 1 = 0 ∧
    Structure.asArray dPrimitive 1 Type'.Short =
      Except.ok [Value.int 35, Value.int (-12), Value.int 45] := by
  decide

/-- C1 counterexample: looking up the duplicated `some` property on the
document parsed from `Root (some = 15.0, some = 0.5) { ... }` does *not*
return the first occurrence: the returned property's value is `0.5`, not
`15.0` (exactly what `Test::hierarchy` requires at line 518). -/
theorem c1_first_occurrence_counterexample :
    (Structure.findPropertyOf dHierarchyRoot (Document.firstChild dHierarchyRoot) 0).map
      (Property.as dHierarchyRoot) = some (Value.rat (mkRat 1 2)) ∧
    ¬ (Structure.findPropertyOf dHierarchyRoot (Document.firstChild dHierarchyRoot) 0).map
      (Property.as dHierarchyRoot) = some (Value.rat (mkRat 15 1)) := by
  decide

/-- C1 (amended): for a document parsed from a custom structure carrying
two properties with the same identifier, the scalar property lookup by
identifier (`propertyOf`/`findPropertyOf` for `some`) returns the *last*
occurrence in source order — its `as<Float>()` value equals `0.5f` — while
`properties()` iteration preserves every occurrence in source order. -/
theorem c1_duplicate_properties_last_wins :
    parse srcHierarchyRoot structureIdentifiers propertyIdentifiers =
      Except.ok dHierarchyRoot ∧
    Document.children dHierarchyRoot = [1] ∧
    Structure.isCustom dHierarchyRoot 1 = true ∧
    Structure.identifier dHierarchyRoot 1 = 1 ∧
    (Structure.propertiesList dHierarchyRoot 1).map
      (fun p => (p.identifier, Property.as dHierarchyRoot p)) =
      [(0, Value.rat (mkRat 15 1)), (0, Value.rat (mkRat 1 2))] ∧
    (Structure.findPropertyOf dHierarchyRoot 1 0).map (Property.as dHierarchyRoot) =
      some (Value.rat (mkRat 1 2)) := by
  decide

/-- C2 counterexample: on `Root (some = false) {}` validated against a
rule requiring a float-typed `some`, the message the validator produces has
a space between the property name and the comma (`some , expected`) — it is
not the claimed form `unexpected type of property some, expected ...`
(exactly the literal `Test::validateWrongPropertyType` expects). -/
theorem c2_message_spacing_counterexample :
    Document.validate dWrongPropertyType [(1, 1, 1)] rulesWrongPropertyType =
      Except.error
        "unexpected type of property some , expected OpenDdl::PropertyType::Float" ∧
    ¬ Document.validate dWrongPropertyType [(1, 1, 1)] rulesWrongPropertyType =
      Except.error
        "unexpected type of property some, expected OpenDdl::PropertyType::Float" := by
  decide

/-- C2 (amended): when validate finds a property that is declared in the
structure's rule but whose stored type is not compatible with the declared
type, it returns failure with a message of exactly the form
`unexpected type of property <prop> , expected <Type>` (with a space on
both sides of the comma separator), naming the property and the expected
type. -/
theorem c2_property_type_message :
    parse srcWrongPropertyType structureIdentifiers propertyIdentifiers =
      Except.ok dWrongPropertyType ∧
    Property.isTypeCompatibleWith Type'.Bool Type'.Float = false ∧
    Document.validate dWrongPropertyType [(1, 1, 1)] rulesWrongPropertyType =
      Except.error ("unexpected type of property " ++
        propertyNameOf dWrongPropertyType 0 ++ " , expected " ++
        propertyTypeName Type'.Float) := by
  decide

/-- Helper for C3: resolution of a keyword absent from the identifier
table yields the `UnknownIdentifier` sentinel, whatever the start
position. -/
theorem lookupIdentifier_not_mem : ∀ (table : List String) (i : Nat) (w : String),
    w ∉ table → lookupIdentifier table i w = UnknownIdentifier
  | [], _, _, _ => rfl
  | t :: ts, i, w, h => by
    have ht : ¬ t = w := fun he => h (he ▸ List.mem_cons_self t ts)
    simp only [lookupIdentifier, if_neg ht]
    exact lookupIdentifier_not_mem ts (i + 1) w (fun hm => h (List.mem_cons_of_mem t hm))

/-- C3: a structure keyword not present in the caller-supplied identifier
table resolves to the reserved `UnknownIdentifier` sentinel (universally),
the concrete `UnspecifiedStructure {}` input parses successfully into a
custom structure with that sentinel, and in the `Test::documentChildren`
document the unknown structure appears in unfiltered `children()` iteration
while being excluded from `childrenOf(knownId)` iteration. -/
theorem c3_unknown_identifier_tolerance :
    (∀ (table : List String) (w : String), w ∉ table →
      lookupIdentifier table 0 w = UnknownIdentifier) ∧
    parse srcCustomUnknown structureIdentifiers propertyIdentifiers =
      Except.ok dCustomUnknown ∧
    Structure.isCustom dCustomUnknown (Document.firstChild dCustomUnknown) = true ∧
    Structure.identifier dCustomUnknown (Document.firstChild dCustomUnknown) =
      UnknownIdentifier ∧
    parse srcDocumentChildren structureIdentifiers propertyIdentifiers =
      Except.ok dDocumentChildren ∧
    (Document.children dDocumentChildren).map (Structure.name dDocumentChildren) =
      ["%root1", "%hierarchic1", "%hierarchic3", "%unknown", "%root3"] ∧
    Structure.identifier dDocumentChildren 6 = UnknownIdentifier ∧
    Structure.name dDocumentChildren 6 = "%unknown" ∧
    (Document.childrenOf dDocumentChildren 2).map (Structure.name dDocumentChildren) =
      ["%hierarchic1", "%hierarchic3"] ∧
    (Document.childrenOf dDocumentChildren 0).map (Structure.name dDocumentChildren) =
      [] := by
  refine ⟨fun table w h => lookupIdentifier_not_mem table 0 w h, ?_⟩
  decide

/-- C3 witness: the universal part of `c3_unknown_identifier_tolerance`
instantiated at the concrete keyword and table of `Test::customUnknown`. -/
theorem c3_unknown_identifier_tolerance_witness :
    lookupIdentifier structureIdentifiers 0 "UnspecifiedStructure" =
      UnknownIdentifier :=
  c3_unknown_identifier_tolerance.1 structureIdentifiers "UnspecifiedStructure"
    (by decide)

/-- C4: validating a document containing `Unknown { Root { int32 {} } }`
next to a known, conforming `Root` structure succeeds — the unknown
structure (carrying the `UnknownIdentifier` sentinel) is silently skipped
together with its entire subtree, even though validating that subtree
against the same rules would reject its inner malformed `Root`. -/
theorem c4_unknown_structure_skipped :
    parse srcUnknownStructure structureIdentifiers propertyIdentifiers =
      Except.ok dUnknownStructure ∧
    Document.children dUnknownStructure = [1, 3] ∧
    Structure.identifier dUnknownStructure 3 = UnknownIdentifier ∧
    Document.validate dUnknownStructure [(1, 1, 1)] rulesUnknownStructure =
      Except.ok () ∧
    validateLevel (2 * dUnknownStructure.structures.length + 4) dUnknownStructure
      rulesUnknownStructure [(1, 1, 1)] true false
      (Structure.children dUnknownStructure 3) =
      Except.error
        "unexpected sub-structure of type OpenDdl::Type::Int in structure Root" := by
  decide

/-- C5: an empty primitive value list `{}` is legal and yields
`arraySize() == 0` with the declared `[2]` retained as
`subArraySize() == 2`, whereas the declared sub-array size zero of
`unsigned_int8[0] {}` is rejected at parse time with
`invalid subarray size on line 1`. -/
theorem c5_empty_list_and_zero_subarray :
    parse srcSubArrayEmpty [] [] = Except.ok dSubArrayEmpty ∧
    Document.children dSubArrayEmpty = [1] ∧
    Structure.arraySize dSubArrayEmpty 1 = 0 ∧
    Structure.subArraySize dSubArrayEmpty 1 = 2 ∧
    parse srcSubArrayInvalidSize [] [] =
      Except.error "invalid subarray size on line 1" := by
  decide

/-- C7: validation counts occurrences of each custom structure identifier
per level against the rule's inclusive `(min, max)` bound: three `Root`
structures against bound `(1, 2)` fail with exactly
`too many Root structures, got 3 but expected max 2`, while the inclusive
bound `(1, 3)` and the unbounded `max == 0` both accept the same
document. -/
theorem c7_too_many_structures :
    parse srcTooManyStructures structureIdentifiers propertyIdentifiers =
      Except.ok dTooManyStructures ∧
    Document.validate dTooManyStructures [(1, 1, 2)] rulesTooManyStructures =
      Except.error "too many Root structures, got 3 but expected max 2" ∧
    Document.validate dTooManyStructures [(1, 1, 3)] rulesTooManyStructures =
      Except.ok () ∧
    Document.validate dTooManyStructures [(1, 1, 0)] rulesTooManyStructures =
      Except.ok () := by
  decide

/-- C8: when a primitive type keyword is not followed by the value-list
opening brace (`float 35`), parsing fails with a diagnostic naming the
expected character and the 1-based source line; a leading newline shifts
the reported line to 2, showing the line number is 1-based and tracked. -/
theorem c8_expected_list_start :
    parse srcExpectedListStart [] [] =
      Except.error "expected \x7b character on line 1" ∧
    parse ("\n" ++ srcExpectedListStart) [] [] =
      Except.error "expected \x7b character on line 2" := by
  decide

/-- C9: for every structure that is of the accessed primitive type `τ` and
has `arraySize() == 1`, `Structure::as<T>()` returns the single stored
value — the element at the structure's begin offset in the document's
type-`τ` data array — with neither defensive assertion firing; and the two
assertions are the only failure modes: whenever `as` fails, either the
array size is not 1 or the stored type does not match the accessed type. -/
theorem c9_as_single_value (d : Document) (i : Nat) (τ : Type')
    (hty : Structure.type d i = τ) (hsz : Structure.arraySize d i = 1) :
    Structure.as d i τ =
      Except.ok ((d.data τ).getD (d.structureAt i).dataBegin (Value.int 0)) ∧
    ∀ (d2 : Document) (i2 : Nat) (τ2 : Type') (e : String),
      Structure.as d2 i2 τ2 = Except.error e →
      Structure.arraySize d2 i2 ≠ 1 ∨ Structure.type d2 i2 ≠ τ2 := by
  constructor
  · simp [Structure.as, Structure.isStructureType, hsz, hty]
  · intro d2 i2 τ2 e he
    by_cases h1 : Structure.arraySize d2 i2 = 1
    · by_cases h2 : Structure.type d2 i2 = τ2
      · simp [Structure.as, Structure.isStructureType, h1, h2] at he
      · exact Or.inr h2
    · exact Or.inl h1

/-- C9 witness: `as<String>()` on the single-valued string structure of
the `Test::validateUnknownStructure` document returns the stored
`"hello"`. -/
theorem c9_as_single_value_witness :
    Structure.as dUnknownStructure 2 Type'.String = Except.ok (Value.str "hello") := by
  have h :=
    (c9_as_single_value dUnknownStructure 2 Type'.String (by decide) (by decide)).1
  rw [h]
  decide

/-- Helper for C10: `typeFromTag` inverts `Type'.toNat` on tags up to the
`Custom` position. -/
theorem typeFromTag_toNat (n : Nat) (h : n ≤ 13) : (typeFromTag n).toNat = n := by
  interval_cases n <;> rfl

/-- C10: `Structure::type()` clamps the stored type tag to at most
`Type::Custom` (its tag is `min(Type::Custom, stored tag)`), so for every
structure — whatever its stored tag — `type()` never yields a value greater
than `Type::Custom`, and `isCustom()` holds exactly when
`type() == Type::Custom`. -/
theorem c10_type_clamped : ∀ (d : Document) (i : Nat),
    (Structure.type d i).toNat = min customTag (d.structureAt i).typeTag ∧
    (Structure.type d i).toNat ≤ Type'.Custom.toNat ∧
    (Structure.isCustom d i = true ↔ Structure.type d i = Type'.Custom) := by
  intro d i
  have hmin : min customTag (d.structureAt i).typeTag ≤ 13 :=
    Nat.min_le_left _ _
  have h1 : (Structure.type d i).toNat = min customTag (d.structureAt i).typeTag :=
    typeFromTag_toNat _ hmin
  refine ⟨h1, ?_, ?_⟩
  · show (Structure.type d i).toNat ≤ 13
    omega
  · simp [Structure.isCustom]

end OpenDdl
